import Mathlib

/-!
# Chaos-experiment orchestration core: a shallow embedding

This file embeds, in Lean 4, the chaos-experiment orchestration core of the
repository: the CPU-stress executor
(`chaos-engineering/experiments/cpu_stress.py`, class `CPUStressExperiment`)
and the orchestrator's start/execute path
(`chaos-engineering/framework/app.py`, functions `start_experiment` and
`execute_experiment`), and proves properties of the embedded definitions.

Modelling conventions:
* Python `int` fields become `Int`; `Optional[int]` becomes `Option Int`;
  Python truthiness of an optional int (`if self.config.workers:`) is
  `w ≠ none ∧ w ≠ some 0`.
* psutil float percentages become `ℚ`; the claims only compare them with
  integer thresholds.
* OS processes become `Worker` values carrying a pid, a liveness flag and a
  flag saying whether the process survives a graceful `terminate` (so that
  the forced `kill` escalation of `_stop_cpu_stress_workers` is observable).
* Exceptions become `Except` results; the side effects relevant to the
  claims (termination signals, status updates, metric emissions, sleeps)
  are recorded in explicit event traces.
-/

namespace ChaosCore

/-- `CPUStressConfig` from `cpu_stress.py` (the `target_pids` field is not
read by any of the modelled methods and is omitted). -/
structure CPUStressConfig where
  cpu_percent : Int
  duration : Int
  workers : Option Int
deriving Repr, DecidableEq

/-- Python truthiness of the `workers : Optional[int]` field:
`None` and `0` are falsy, every other int is truthy. -/
def workersTruthy : Option Int → Bool
  | none => false
  | some k => decide (k ≠ 0)

/-- The result dict of `validate_parameters`. -/
structure ValidationResult where
  valid : Bool
  errors : List String
deriving Repr, DecidableEq

/-- The error message appended when `cpu_percent` is out of range. -/
def cpuRangeMsg : String := "CPU percentage must be between 10% and 95%"

/-- The error message appended when `duration` is out of range. -/
def durationRangeMsg : String := "Duration must be between 10 seconds and 1 hour"

/-- The error message appended when the worker count is too large. -/
def workerCountMsg : String := "Worker count cannot exceed the limit"

/-- `CPUStressExperiment.validate_parameters` (cpu_stress.py lines 38-60).
`cpu_count` stands for `multiprocessing.cpu_count()`.  The third check is
guarded by Python truthiness: `if self.config.workers and
self.config.workers > multiprocessing.cpu_count() * 2`. -/
def validate_parameters (cpu_count : Nat) (cfg : CPUStressConfig) : ValidationResult :=
  let r0 : ValidationResult := ⟨true, []⟩
  let r1 := if cfg.cpu_percent < 10 ∨ cfg.cpu_percent > 95 then
      ⟨false, r0.errors ++ [cpuRangeMsg]⟩ else r0
  let r2 := if cfg.duration < 10 ∨ cfg.duration > 3600 then
      ⟨false, r1.errors ++ [durationRangeMsg]⟩ else r1
  let r3 := if workersTruthy cfg.workers ∧
      (cfg.workers.getD 0) > 2 * (cpu_count : Int) then
      ⟨false, r2.errors ++ [workerCountMsg]⟩ else r2
  r3

/-- Modelled from the spec's words (§4.3 / §8): a configuration is
"out of range" when intensity ∉ [10,95], duration ∉ [10,3600] seconds, or
worker count > 2 × hardware concurrency. -/
def specOutOfRange (cpu_count : Nat) (cfg : CPUStressConfig) : Bool :=
  decide (cfg.cpu_percent < 10 ∨ cfg.cpu_percent > 95) ||
  decide (cfg.duration < 10 ∨ cfg.duration > 3600) ||
  (match cfg.workers with
   | none => false
   | some k => decide (k > 2 * (cpu_count : Int)))

/-- The result dict of `pre_flight_check`. -/
structure PreFlightResult where
  safe : Bool
  warnings : List String
  blockers : List String
deriving Repr, DecidableEq

/-- `CPUStressExperiment.pre_flight_check` (cpu_stress.py lines 62-96),
as a function of the sampled telemetry (`psutil.cpu_percent`,
`psutil.virtual_memory().percent`, `psutil.disk_usage('/').percent`).
The assignment to `self.original_cpu_usage` only feeds
`get_impact_assessment` and is not part of the returned checks. -/
def pre_flight_check (cpu mem disk : ℚ) : PreFlightResult :=
  let c0 : PreFlightResult := ⟨true, [], []⟩
  let c1 := if cpu > 70 then
      { c0 with warnings := c0.warnings ++ ["Current CPU usage is already high"] } else c0
  let c2 := if cpu > 85 then
      { c1 with blockers := c1.blockers ++ ["Current CPU usage too high to safely run experiment"],
                safe := false } else c1
  let c3 := if mem > 90 then
      { c2 with blockers := c2.blockers ++ ["Memory usage too high - risk of system instability"],
                safe := false } else c2
  let c4 := if disk > 95 then
      { c3 with warnings := c3.warnings ++ ["Low disk space - may affect logging and metrics"] } else c3
  c4

/-- The worker-count resolution done by `CPUStressExperiment.setup`
(cpu_stress.py lines 102-104): `if not self.config.workers:
self.config.workers = max(1, multiprocessing.cpu_count() - 1)`.
Python truthiness means both `None` and `0` are replaced. -/
def resolveWorkers (cpu_count : Nat) (w : Option Int) : Int :=
  if workersTruthy w then w.getD 0
  else max 1 ((cpu_count : Int) - 1)

/-- A worker process handle (an entry of `self.worker_processes`).
`alive` is `process.is_alive()`; `resists` records whether the process
survives a graceful `terminate` + `join(timeout=5)`, so that the forced
`kill` escalation is observable in the model. -/
structure Worker where
  pid : Nat
  alive : Bool
  resists : Bool
deriving Repr, DecidableEq

/-- A termination signal sent to a worker process. -/
inductive Sig where
  | terminate (pid : Nat)
  | kill (pid : Nat)
deriving Repr, DecidableEq

/-- `CPUStressExperiment._stop_cpu_stress_workers` (cpu_stress.py lines
251-266): first pass sends `terminate` to every live worker; second pass
joins each with a timeout and force-`kill`s any worker still alive; then
`self.worker_processes.clear()`.  Returns the new worker list (always
empty) together with the signals sent, in order. -/
def stopAll (ws : List Worker) : List Worker × List Sig :=
  let termSigs := ws.filterMap fun w => if w.alive then some (Sig.terminate w.pid) else none
  let killSigs := ws.filterMap fun w => if w.alive ∧ w.resists then some (Sig.kill w.pid) else none
  ([], termSigs ++ killSigs)

/-- The result dict of `cleanup`. -/
structure CleanupResult where
  cleanup_complete : Bool
  workers_terminated : Nat
deriving Repr, DecidableEq

/-- `CPUStressExperiment.cleanup` (cpu_stress.py lines 191-212): stops all
workers, then reports `workers_terminated = len(self.worker_processes)` —
computed from the list that `_stop_cpu_stress_workers` has just cleared.
The 10 s stabilization sleep and the telemetry sample do not affect the
returned counts and are omitted. -/
def cleanup (ws : List Worker) : List Worker × CleanupResult :=
  let ws' := (stopAll ws).1
  (ws', ⟨true, ws'.length⟩)

/-! ## The execute loop -/

/-- An observable step of `CPUStressExperiment.execute`, tagged with the
tick index of the monitoring loop where relevant. -/
inductive Event where
  | startWorkers (count : Nat)
  | safetyCheck (t : Nat) (safe : Bool)
  | telemetry (t : Nat)
  | metricsEmit (t : Nat)
  | sleep (t : Nat)
  | stopWorkers
deriving Repr, DecidableEq

/-- What the environment does at one tick of the monitoring loop:
the safety poll answers safe, answers not-safe with a message, or the
metrics recording call raises. -/
inductive TickOutcome where
  | safe
  | notSafe (msg : String)
  | metricsError (msg : String)
deriving Repr, DecidableEq

/-- An exception escaping `execute`. `safetyViolation m` stands for the
`Exception(f"Safety violation: {message}")` raised on an unsafe poll. -/
inductive ExecError where
  | safetyViolation (msg : String)
  | spawnError (msg : String)
  | other (msg : String)
deriving Repr, DecidableEq

/-- The environment of one `execute` run: what `multiprocessing.Process`
spawning yields for the i-th worker (`none` = the spawn raises), and what
the i-th tick of the monitoring loop observes. -/
structure Env where
  spawn : Nat → Option Worker
  outcome : Nat → TickOutcome

/-- `CPUStressExperiment._start_cpu_stress_workers` (cpu_stress.py lines
237-249): spawns `count` workers in order, appending each to the worker
list; a spawn failure leaves the partial list in place and raises
(returns `false`). -/
def startWorkers (spawn : Nat → Option Worker) : Nat → Nat → List Worker → List Worker × Bool
  | _, 0, acc => (acc, true)
  | i, n + 1, acc =>
    match spawn i with
    | some w => startWorkers spawn (i + 1) n (acc ++ [w])
    | none => (acc, false)

/-- The number of iterations of `while elapsed < self.config.duration`
with `elapsed` starting at 0 and stepping by `interval = 5`
(cpu_stress.py lines 133-160): `⌈duration / 5⌉` for positive durations. -/
def loopCount (duration : Int) : Nat := (duration.toNat + 4) / 5

/-- The body of the monitoring loop of `execute` (cpu_stress.py lines
136-160), with `n` iterations remaining and `t` the current tick index.
Per tick, in source order: the safety poll (line 138; on unsafe, stop the
workers and raise), the telemetry sample (lines 145-152), the metrics
recording (line 154; the tick where the environment makes it raise ends
the loop with an error), and the sleep (line 159). -/
def execLoop (outcome : Nat → TickOutcome) (ws : List Worker) (t : Nat) :
    Nat → List Event × List Worker × Except ExecError Unit
  | 0 => ([], ws, .ok ())
  | n + 1 =>
    match outcome t with
    | .safe =>
      let rest := execLoop outcome ws (t + 1) n
      (.safetyCheck t true :: .telemetry t :: .metricsEmit t :: .sleep t :: rest.1,
        rest.2.1, rest.2.2)
    | .notSafe msg =>
      ([.safetyCheck t false, .stopWorkers], (stopAll ws).1, .error (.safetyViolation msg))
    | .metricsError msg =>
      ([.safetyCheck t true, .telemetry t], ws, .error (.other msg))

/-- The result dict of a successful `execute`. -/
structure ExecResult where
  success : Bool
  workers_used : Nat
  target_cpu_percent : Int
deriving Repr, DecidableEq

/-- The outcome of an `execute` run: its event trace, the final worker
list, and the returned value or escaping exception. -/
structure ExecOutput where
  trace : List Event
  workers : List Worker
  result : Except ExecError ExecResult
deriving Repr

/-- The `try` block of `CPUStressExperiment.execute` (cpu_stress.py lines
128-184): start the workers, run the monitoring loop, and on normal loop
exit stop the workers (line 163) and return the success dict. -/
def executeBody (env : Env) (count : Nat) (cpu_percent duration : Int)
    (ws0 : List Worker) : ExecOutput :=
  let started := startWorkers env.spawn 0 count ws0
  if started.2 then
    let loop := execLoop env.outcome started.1 0 (loopCount duration)
    match loop.2.2 with
    | .ok _ =>
      ⟨.startWorkers count :: loop.1 ++ [.stopWorkers], (stopAll loop.2.1).1,
        .ok ⟨true, count, cpu_percent⟩⟩
    | .error e => ⟨.startWorkers count :: loop.1, loop.2.1, .error e⟩
  else
    ⟨[.startWorkers count], started.1, .error (.spawnError "worker spawn failed")⟩

/-- `CPUStressExperiment.execute` (cpu_stress.py lines 122-189): the `try`
block, wrapped in the `except` handler (lines 186-189) that stops the
workers once more and re-raises. -/
def execute (env : Env) (count : Nat) (cpu_percent duration : Int)
    (ws0 : List Worker) : ExecOutput :=
  let body := executeBody env count cpu_percent duration ws0
  match body.result with
  | .ok r => ⟨body.trace, body.workers, .ok r⟩
  | .error e => ⟨body.trace ++ [.stopWorkers], (stopAll body.workers).1, .error e⟩

/-! ## Per-tick views of the trace -/

/-- The tick index an event belongs to (`none` for the events outside the
monitoring loop). -/
def tickOf : Event → Option Nat
  | .safetyCheck t _ => some t
  | .telemetry t => some t
  | .metricsEmit t => some t
  | .sleep t => some t
  | _ => none

/-- The events of tick `t` of a trace, in trace order. -/
def eventsOfTick (t : Nat) (tr : List Event) : List Event :=
  tr.filter fun e => decide (tickOf e = some t)

/-- Modelled from the spec's words (§5 / §8, the claimed tick shape):
"each tick performs: telemetry sample → metrics emission → safety check →
sleep-until-next-tick". -/
def specTickOrder (t : Nat) (safeFlag : Bool) : List Event :=
  [.telemetry t, .metricsEmit t, .safetyCheck t safeFlag, .sleep t]

/-- The tick shape the code actually produces on a safe tick
(cpu_stress.py lines 136-160): safety check, then telemetry sample, then
metrics emission, then sleep. -/
def codeTickOrder (t : Nat) : List Event :=
  [.safetyCheck t true, .telemetry t, .metricsEmit t, .sleep t]

/-! ## The orchestrator (`framework/app.py`) -/

/-- An observable step of the orchestrator functions of `app.py`.
`executorCleanup` models the executor-cleanup invocation that the spec
(§7) attributes to the orchestrator boundary; it is declared so that its
absence from the orchestrator's trace can be stated. -/
inductive OrchEvent where
  | getExperiment
  | updateStatus (s : String)
  | activeInc
  | execEvent (e : Event)
  | updateResults
  | addError (msg : String)
  | executorCleanup
  | activeDec
deriving Repr, DecidableEq

/-- `str(e)` of an exception escaping the executor: the safety-violation
path raises `Exception(f"Safety violation: {safety_status['message']}")`
(cpu_stress.py line 142). -/
def errStr : ExecError → String
  | .safetyViolation m => "Safety violation: " ++ m
  | .spawnError m => m
  | .other m => m

/-- `execute_experiment` from `framework/app.py` (lines 327-383), as a
function of the executor run (its event trace and its outcome): load the
experiment, set status RUNNING, bump the active gauge, run the executor;
on success record results then status COMPLETED; on an exception record
status FAILED then add the error, without re-raising; the `finally`
clause only decrements the active gauge.  The second component is the
exception escaping the background task (always `none`). -/
def execute_experiment (run : List Event × Except ExecError ExecResult) :
    List OrchEvent × Option ExecError :=
  match run.2 with
  | .ok _ =>
    ([.getExperiment, .updateStatus "RUNNING", .activeInc] ++ run.1.map .execEvent ++
      [.updateResults, .updateStatus "COMPLETED", .activeDec], none)
  | .error e =>
    ([.getExperiment, .updateStatus "RUNNING", .activeInc] ++ run.1.map .execEvent ++
      [.updateStatus "FAILED", .addError (errStr e), .activeDec], none)

/-- The orchestrator driving a CPU-stress executor run: the composition of
`execute_experiment` with `execute`. -/
def runCPUStressExperiment (env : Env) (count : Nat) (cpu_percent duration : Int)
    (ws0 : List Worker) : List OrchEvent × Option ExecError :=
  let out := execute env count cpu_percent duration ws0
  execute_experiment (out.trace, out.result)

/-- The typed failures of the `start_experiment` endpoint
(`HTTPException`s in app.py, lines 228-252). -/
inductive StartError where
  | notFound
  | invalidState
  | safetyBlocked
deriving Repr, DecidableEq

/-- The state-changing effects of a successful `start_experiment` call. -/
inductive StartEffect where
  | scheduleExecution
  | updateStatus (s : String)
deriving Repr, DecidableEq

/-- `start_experiment` from `framework/app.py` (lines 228-252), as a
function of the loaded experiment's status and of the pre-flight safety
answer: statuses outside `{DRAFT, SCHEDULED}` are rejected with a 400
before any safety check, task scheduling or status update; an unsafe
pre-flight is rejected next; otherwise the execution task is scheduled
and the status is set to PENDING (in that source order). -/
def start_experiment (status : String) (preflightSafe : Bool) :
    List StartEffect × Option StartError :=
  if status ≠ "DRAFT" ∧ status ≠ "SCHEDULED" then ([], some .invalidState)
  else if preflightSafe = false then ([], some .safetyBlocked)
  else ([.scheduleExecution, .updateStatus "PENDING"], none)

/-- Modelled from the spec's words (§7, the claimed orchestrator shape):
on an execute error the orchestrator funnels the experiment through
cleanup before the terminal status is recorded — i.e. an
executor-cleanup invocation appears in the trace before the
`updateStatus "FAILED"` event. -/
def specOrchCleanupBeforeFailed (evs : List OrchEvent) : Bool :=
  (evs.takeWhile fun x => !(x == OrchEvent.updateStatus "FAILED")).contains
    OrchEvent.executorCleanup

/-- The concatenated trace of `j` consecutive safe monitoring ticks
starting at tick `t0`. -/
def safeTicks : Nat → Nat → List Event
  | _, 0 => []
  | t0, j + 1 => codeTickOrder t0 ++ safeTicks (t0 + 1) j

/-! ## Demonstration environments (concrete runs used as witnesses) -/

/-- All spawns succeed; the safety poll trips at tick 1. -/
def demoEnvViolation : Env :=
  ⟨fun i => some ⟨i, true, false⟩,
   fun s => if s = 1 then .notSafe "memory pressure" else .safe⟩

/-- All spawns succeed; every tick is safe. -/
def demoEnvOk : Env :=
  ⟨fun i => some ⟨i, true, false⟩, fun _ => .safe⟩

/-- All spawns succeed; the metrics sink raises at tick 0. -/
def demoEnvError : Env :=
  ⟨fun i => some ⟨i, true, false⟩, fun _ => .metricsError "sink unavailable"⟩

/-! ## Helper lemmas -/

/-- `loopCount` is exactly the iteration count of the while loop: the
loop body runs for tick `k` iff `5 * k < duration`. -/
theorem loopCount_correct (duration : Int) (k : Nat) :
    5 * (k : Int) < duration ↔ k < loopCount duration := by
  unfold loopCount
  omega

theorem stopAll_fst (ws : List Worker) : (stopAll ws).1 = [] := rfl

/-- `execute` always leaves the worker list empty. -/
theorem execute_workers_nil (env : Env) (count : Nat) (cp d : Int) (ws0 : List Worker) :
    (execute env count cp d ws0).workers = [] := by
  unfold execute executeBody
  by_cases h : (startWorkers env.spawn 0 count ws0).2 = true
  · rcases hr : (execLoop env.outcome (startWorkers env.spawn 0 count ws0).1 0
        (loopCount d)).2.2 with _ | e <;> simp [h, hr, stopAll_fst]
  · simp [h, stopAll_fst]

/-- `execute` always records a worker-teardown invocation in its trace. -/
theorem execute_stop_mem (env : Env) (count : Nat) (cp d : Int) (ws0 : List Worker) :
    Event.stopWorkers ∈ (execute env count cp d ws0).trace := by
  unfold execute executeBody
  by_cases h : (startWorkers env.spawn 0 count ws0).2 = true
  · rcases hr : (execLoop env.outcome (startWorkers env.spawn 0 count ws0).1 0
        (loopCount d)).2.2 with _ | e <;> simp [h, hr]
  · simp [h]

/-- If the first `j` ticks are safe and tick `t0 + j` is unsafe (with
`j` inside the loop bound), the monitoring loop runs exactly the `j` safe
ticks, then the failing safety check, stops the workers, and raises the
safety violation. -/
theorem execLoop_notSafe (outcome : Nat → TickOutcome) (msg : String) :
    ∀ (j n t0 : Nat) (ws : List Worker), j < n →
    (∀ s, s < j → outcome (t0 + s) = .safe) →
    outcome (t0 + j) = .notSafe msg →
    execLoop outcome ws t0 n =
      (safeTicks t0 j ++ [.safetyCheck (t0 + j) false, .stopWorkers], [],
        .error (.safetyViolation msg)) := by
  intro j
  induction j with
  | zero =>
    intro n t0 ws hn hsafe hun
    match n, hn with
    | n + 1, _ =>
      simp only [Nat.add_zero] at hun
      simp [execLoop, hun, safeTicks, stopAll_fst]
  | succ j ih =>
    intro n t0 ws hn hsafe hun
    match n, hn with
    | n + 1, hn =>
      have h0 : outcome t0 = .safe := by simpa using hsafe 0 (Nat.succ_pos j)
      have hrest := ih n (t0 + 1) ws (by omega)
        (fun s hs => by
          have h := hsafe (s + 1) (by omega)
          rw [show t0 + 1 + s = t0 + (s + 1) by omega]
          exact h)
        (by rw [show t0 + 1 + j = t0 + (j + 1) by omega]; exact hun)
      simp [execLoop, h0, hrest, safeTicks, codeTickOrder,
        show t0 + 1 + j = t0 + (j + 1) by omega]

/-- A safety-check event inside a run of safe ticks starting at `t0`
carries a tick index in `[t0, t0 + j)`. -/
theorem safetyCheck_mem_safeTicks {s : Nat} {b : Bool} :
    ∀ (j t0 : Nat), Event.safetyCheck s b ∈ safeTicks t0 j → t0 ≤ s ∧ s < t0 + j := by
  intro j
  induction j with
  | zero => intro t0 h; simp [safeTicks] at h
  | succ j ih =>
    intro t0 h
    simp only [safeTicks, codeTickOrder, List.mem_append, List.mem_cons,
      List.not_mem_nil, or_false] at h
    rcases h with (h | h | h | h) | h
    · obtain ⟨hs, -⟩ := Event.safetyCheck.inj h
      omega
    · exact absurd h (by simp)
    · exact absurd h (by simp)
    · exact absurd h (by simp)
    · have := ih (t0 + 1) h
      omega

/-- Ticks earlier than the loop's current tick index contribute no
events to the remaining loop trace. -/
theorem eventsOfTick_execLoop_lt (outcome : Nat → TickOutcome) :
    ∀ (n t0 t : Nat) (ws : List Worker), t < t0 →
    eventsOfTick t (execLoop outcome ws t0 n).1 = [] := by
  intro n
  induction n with
  | zero => intro t0 t ws _; simp [execLoop, eventsOfTick]
  | succ n ih =>
    intro t0 t ws ht
    have hne : ¬ (t0 = t) := by omega
    rcases ho : outcome t0 with _ | msg | msg
    · have := ih (t0 + 1) t ws (by omega)
      simpa [execLoop, ho, eventsOfTick, tickOf, hne, List.filter] using this
    · simp [execLoop, ho, eventsOfTick, tickOf, hne, List.filter]
    · simp [execLoop, ho, eventsOfTick, tickOf, hne, List.filter]

/-- Within the monitoring loop, the events of any single tick form one of
four sequences, each beginning with the safety check: nothing (the tick
was never reached), a failing safety check, a safety check followed by a
telemetry sample (the metrics call raised), or the full
safety-check → telemetry → metrics-emission → sleep tick. -/
theorem eventsOfTick_execLoop (outcome : Nat → TickOutcome) :
    ∀ (n t0 t : Nat) (ws : List Worker), t0 ≤ t →
    eventsOfTick t (execLoop outcome ws t0 n).1 = [] ∨
    eventsOfTick t (execLoop outcome ws t0 n).1 = [.safetyCheck t false] ∨
    eventsOfTick t (execLoop outcome ws t0 n).1 = [.safetyCheck t true, .telemetry t] ∨
    eventsOfTick t (execLoop outcome ws t0 n).1 = codeTickOrder t := by
  intro n
  induction n with
  | zero => intro t0 t ws _; left; simp [execLoop, eventsOfTick]
  | succ n ih =>
    intro t0 t ws ht
    by_cases heq : t0 = t
    · subst heq
      rcases ho : outcome t0 with _ | msg | msg
      · right; right; right
        have hrest := eventsOfTick_execLoop_lt outcome n (t0 + 1) t0 ws (by omega)
        simp [execLoop, ho, eventsOfTick, tickOf, codeTickOrder, List.filter] at hrest ⊢
        simpa [eventsOfTick] using hrest
      · right; left
        simp [execLoop, ho, eventsOfTick, tickOf, List.filter]
      · right; right; left
        simp [execLoop, ho, eventsOfTick, tickOf, List.filter]
    · have hlt : t0 < t := by omega
      rcases ho : outcome t0 with _ | msg | msg
      · have := ih (t0 + 1) t ws (by omega)
        simpa [execLoop, ho, eventsOfTick, tickOf, heq, List.filter] using this
      · left; simp [execLoop, ho, eventsOfTick, tickOf, heq, List.filter]
      · left; simp [execLoop, ho, eventsOfTick, tickOf, heq, List.filter]

/-- `takeWhile` walks past a prefix whose elements all satisfy the
predicate. -/
theorem takeWhile_append_of_all {α : Type} (p : α → Bool) :
    ∀ (l1 l2 : List α), (∀ a ∈ l1, p a = true) →
    (l1 ++ l2).takeWhile p = l1 ++ l2.takeWhile p := by
  intro l1
  induction l1 with
  | nil => intro l2 _; simp
  | cons a l ih =>
    intro l2 h
    have ha : p a = true := h a (by simp)
    have hl : ∀ b ∈ l, p b = true := fun b hb => h b (by simp [hb])
    simp [List.takeWhile_cons, ha, ih l2 hl]

/-! ## The claims -/

/-- C8: worker teardown is idempotent.  `_stop_cpu_stress_workers` clears
`self.worker_processes`, so a second invocation finds an empty list: it
sends no termination signals, raises nothing (the model has no failure
channel, matching the source, whose second pass iterates an empty list),
and leaves the same final state — the empty worker list — as one call. -/
theorem stopAll_idempotent (ws : List Worker) :
    (stopAll (stopAll ws).1).1 = (stopAll ws).1 ∧
    (stopAll (stopAll ws).1).2 = [] ∧
    (stopAll ws).1 = [] :=
  ⟨rfl, rfl, rfl⟩

/-- C9: `cleanup` always reports `workers_terminated = 0`, whatever the
worker pool contained, because `_stop_cpu_stress_workers` clears the
worker list before `cleanup` takes its length. -/
theorem cleanup_workers_terminated_zero (ws : List Worker) :
    (cleanup ws).2.workers_terminated = 0 := rfl

/-- C10: a configuration with `workers = 0` validates exactly like one
with `workers = None` (the worker-count bound is guarded by Python
truthiness), and `setup` replaces both `None` and `0` by
`max(1, cpu_count - 1) ≥ 1`, so the planned worker count of `execute` is
never zero for those configurations. -/
theorem workers_zero_passes_validation_and_setup_defaults
    (cc : Nat) (cp d : Int) :
    validate_parameters cc ⟨cp, d, some 0⟩ = validate_parameters cc ⟨cp, d, none⟩ ∧
    resolveWorkers cc (some 0) = max 1 ((cc : Int) - 1) ∧
    resolveWorkers cc none = max 1 ((cc : Int) - 1) ∧
    1 ≤ resolveWorkers cc (some 0) ∧
    1 ≤ resolveWorkers cc none ∧
    (validate_parameters 4 ⟨80, 60, some 0⟩).valid = true := by
  refine ⟨?_, rfl, rfl, le_max_left 1 _, le_max_left 1 _, by decide⟩
  simp [validate_parameters, workersTruthy]

/-- C6: `start_experiment` on an experiment whose status is outside
`{DRAFT, SCHEDULED}` is rejected with the invalid-state failure before
anything happens: no execution task is scheduled and no status update is
issued, so the status is left unchanged. -/
theorem start_rejected_outside_draft_scheduled (status : String) (preflightSafe : Bool)
    (h : status ≠ "DRAFT" ∧ status ≠ "SCHEDULED") :
    start_experiment status preflightSafe = ([], some .invalidState) := by
  unfold start_experiment
  rw [if_pos h]

/-- Witness for C6: starting an experiment already `RUNNING` is rejected
with no effects. -/
theorem start_rejected_outside_draft_scheduled_witness :
    start_experiment "RUNNING" true = ([], some .invalidState) :=
  start_rejected_outside_draft_scheduled "RUNNING" true ⟨by decide, by decide⟩

/-- C4: `validate_parameters` — a pure function of the configuration in
this embedding, mirroring the source, which only reads `self.config` —
returns `valid = false` exactly when the configuration is out of range
(intensity ∉ [10,95], duration ∉ [10,3600], or worker count
> 2 × cpu_count), and it returns an error message exactly when it returns
`valid = false`.  In particular intensity 5 is rejected with the specific
CPU-range message, and intensity 80 with duration 60 is accepted. -/
theorem validate_parameters_rejects_exactly_out_of_range
    (cc : Nat) (cfg : CPUStressConfig) :
    ((validate_parameters cc cfg).valid = !(specOutOfRange cc cfg)) ∧
    ((validate_parameters cc cfg).errors.isEmpty = (validate_parameters cc cfg).valid) ∧
    validate_parameters 4 ⟨5, 60, none⟩ = ⟨false, [cpuRangeMsg]⟩ ∧
    (validate_parameters 4 ⟨80, 60, none⟩).valid = true := by
  rcases cfg with ⟨cp, d, w⟩
  refine ⟨?_, ?_, by decide, by decide⟩ <;>
  · rcases w with _ | k
    · by_cases h1 : cp < 10 ∨ cp > 95 <;> by_cases h2 : d < 10 ∨ d > 3600 <;>
        simp [validate_parameters, specOutOfRange, workersTruthy, h1, h2]
    · by_cases h1 : cp < 10 ∨ cp > 95 <;> by_cases h2 : d < 10 ∨ d > 3600 <;>
        by_cases h3 : k > 2 * (cc : Int) <;>
        simp [validate_parameters, specOutOfRange, workersTruthy, h1, h2, h3,
          show k > 2 * (cc : Int) → k ≠ 0 from by omega]

/-- C5: `pre_flight_check` returns `safe = false` exactly when the
sampled CPU usage exceeds 85% or the memory usage exceeds 90%, its
blockers list is non-empty exactly when it is unsafe, and its warnings
list is non-empty exactly when CPU exceeds 70% or disk exceeds 95% —
so near-threshold conditions produce warnings only and never block. -/
theorem pre_flight_check_blocks_exactly_over_threshold (cpu mem disk : ℚ) :
    ((pre_flight_check cpu mem disk).safe = !(decide (cpu > 85) || decide (mem > 90))) ∧
    ((pre_flight_check cpu mem disk).blockers.isEmpty = (pre_flight_check cpu mem disk).safe) ∧
    ((pre_flight_check cpu mem disk).warnings.isEmpty
      = !(decide (cpu > 70) || decide (disk > 95))) := by
  refine ⟨?_, ?_, ?_⟩ <;>
  · by_cases h1 : cpu > 70 <;> by_cases h2 : cpu > 85 <;>
      by_cases h3 : mem > 90 <;> by_cases h4 : disk > 95 <;>
      simp [pre_flight_check, h1, h2, h3, h4]

/-- C1: `execute` invokes the two-phase worker teardown
(`_stop_cpu_stress_workers`: terminate, join with timeout, then kill) on
every exit path — the environment ranges over normal completion, safety
violation, a raising metrics call, and worker-spawn failure — so when
`execute` returns or raises, the worker list is empty and a teardown
invocation is recorded in the trace: no worker outlives `execute`. -/
theorem execute_teardown_on_every_exit_path (env : Env) (count : Nat) (cp d : Int)
    (ws0 : List Worker) :
    (execute env count cp d ws0).workers = [] ∧
    Event.stopWorkers ∈ (execute env count cp d ws0).trace :=
  ⟨execute_workers_nil env count cp d ws0, execute_stop_mem env count cp d ws0⟩

/-- C2: if the safety poll first reports unsafe at tick `t` (inside the
loop bound), `execute` breaks at that very tick — the trace contains no
safety check of any later tick — tears the workers down, and raises the
safety-violation error to its caller. -/
theorem safety_violation_stops_at_tick (env : Env) (count : Nat) (cp d : Int)
    (ws0 : List Worker) (t : Nat) (msg : String)
    (hstart : (startWorkers env.spawn 0 count ws0).2 = true)
    (ht : t < loopCount d)
    (hsafe : ∀ s, s < t → env.outcome s = .safe)
    (hviol : env.outcome t = .notSafe msg) :
    (execute env count cp d ws0).result = .error (.safetyViolation msg) ∧
    (execute env count cp d ws0).workers = [] ∧
    Event.stopWorkers ∈ (execute env count cp d ws0).trace ∧
    (∀ s b, Event.safetyCheck s b ∈ (execute env count cp d ws0).trace → s ≤ t) := by
  have hloop := execLoop_notSafe env.outcome msg t (loopCount d) 0
    (startWorkers env.spawn 0 count ws0).1 ht
    (fun s hs => by simpa using hsafe s hs) (by simpa using hviol)
  refine ⟨?_, execute_workers_nil env count cp d ws0,
    execute_stop_mem env count cp d ws0, ?_⟩
  · unfold execute executeBody
    simp [hstart, hloop]
  · intro s b hmem
    unfold execute executeBody at hmem
    simp [hstart, hloop] at hmem
    rcases hmem with hmem | hmem
    · have := safetyCheck_mem_safeTicks t 0 hmem
      omega
    · omega

/-- Witness for C2: a two-worker run of duration 15 whose safety poll
trips at tick 1 ends with the safety-violation error and an empty worker
pool. -/
theorem safety_violation_stops_at_tick_witness :
    (execute demoEnvViolation 2 80 15 []).result
      = .error (.safetyViolation "memory pressure") ∧
    (execute demoEnvViolation 2 80 15 []).workers = [] := by
  have h := safety_violation_stops_at_tick demoEnvViolation 2 80 15 [] 1 "memory pressure"
    (by rfl) (by decide)
    (fun s hs => by
      have hz : s = 0 := by omega
      subst hz; rfl)
    (by rfl)
  exact ⟨h.1, h.2.1⟩

/-- C7 (amended): within the execute loop every tick performs its steps
in the order safety check → telemetry sample → metrics emission → sleep:
the events any tick contributes to the trace are a safety-first sequence
(possibly cut short by a safety violation or a raising metrics call). -/
theorem tick_order_safety_check_first (env : Env) (count : Nat) (cp d : Int)
    (ws0 : List Worker) (t : Nat) :
    eventsOfTick t (execute env count cp d ws0).trace = [] ∨
    eventsOfTick t (execute env count cp d ws0).trace = [.safetyCheck t false] ∨
    eventsOfTick t (execute env count cp d ws0).trace
      = [.safetyCheck t true, .telemetry t] ∨
    eventsOfTick t (execute env count cp d ws0).trace = codeTickOrder t := by
  unfold execute executeBody
  by_cases h : (startWorkers env.spawn 0 count ws0).2 = true
  · have hloop := eventsOfTick_execLoop env.outcome (loopCount d) 0 t
      (startWorkers env.spawn 0 count ws0).1 (Nat.zero_le t)
    rcases hr : (execLoop env.outcome (startWorkers env.spawn 0 count ws0).1 0
        (loopCount d)).2.2 with _ | e
    · simpa [h, hr, eventsOfTick, tickOf, List.filter_append, List.filter] using hloop
    · simpa [h, hr, eventsOfTick, tickOf, List.filter_append, List.filter] using hloop
  · left
    simp [h, eventsOfTick, tickOf, List.filter]

/-- Counterexample for C7 as stated: in a concrete one-tick run the
events of tick 0 are safety check, telemetry, metrics emission, sleep —
not the telemetry → metrics → safety → sleep order the claim gives. -/
theorem tick_order_claim_counterexample :
    eventsOfTick 0 (execute demoEnvOk 1 80 5 []).trace = codeTickOrder 0 ∧
    (decide (eventsOfTick 0 (execute demoEnvOk 1 80 5 []).trace = specTickOrder 0 true) ||
     decide (eventsOfTick 0 (execute demoEnvOk 1 80 5 []).trace = specTickOrder 0 false))
      = false := by
  decide



/-- Counterexample for C3 as stated: in a concrete failing run the
orchestrator records the terminal status FAILED without any
executor-cleanup invocation appearing in its trace — `execute_experiment`
never funnels the experiment through `cleanup`. -/
theorem orchestrator_cleanup_claim_counterexample :
    specOrchCleanupBeforeFailed (runCPUStressExperiment demoEnvError 1 80 5 []).1 = false ∧
    (runCPUStressExperiment demoEnvError 1 80 5 []).1.contains
      (OrchEvent.updateStatus "FAILED") = true ∧
    (runCPUStressExperiment demoEnvError 1 80 5 []).1.contains
      OrchEvent.executorCleanup = false := by
  decide

/-- C3 (amended): an error raised inside the executor's execute phase is
caught by `execute_experiment` and never escapes the background task; the
orchestrator records terminal status FAILED and then the error via
`add_error`; it performs no executor-cleanup call of its own — instead
the worker teardown has already run inside `execute`'s own error path, so
a teardown event precedes the FAILED status in the combined trace. -/
theorem orchestrator_error_path (env : Env) (count : Nat) (cp d : Int)
    (ws0 : List Worker) (e : ExecError)
    (herr : (execute env count cp d ws0).result = .error e) :
    (runCPUStressExperiment env count cp d ws0).2 = none ∧
    (runCPUStressExperiment env count cp d ws0).1 =
      [.getExperiment, .updateStatus "RUNNING", .activeInc] ++
        (execute env count cp d ws0).trace.map .execEvent ++
        [.updateStatus "FAILED", .addError (errStr e), .activeDec] ∧
    OrchEvent.executorCleanup ∉ (runCPUStressExperiment env count cp d ws0).1 ∧
    OrchEvent.execEvent .stopWorkers ∈
      ((runCPUStressExperiment env count cp d ws0).1.takeWhile
        fun x => !(x == OrchEvent.updateStatus "FAILED")) := by
  have hshape : (runCPUStressExperiment env count cp d ws0) =
      ([.getExperiment, .updateStatus "RUNNING", .activeInc] ++
        (execute env count cp d ws0).trace.map .execEvent ++
        [.updateStatus "FAILED", .addError (errStr e), .activeDec], none) := by
    unfold runCPUStressExperiment execute_experiment
    simp [herr]
  refine ⟨by rw [hshape], by rw [hshape], ?_, ?_⟩
  · rw [hshape]
    simp
  · rw [hshape]
    have hpre : ∀ a ∈ ([.getExperiment, .updateStatus "RUNNING", .activeInc] ++
        (execute env count cp d ws0).trace.map OrchEvent.execEvent),
        (fun x => !(x == OrchEvent.updateStatus "FAILED")) a = true := by
      intro a ha
      simp only [List.mem_append, List.mem_cons, List.not_mem_nil, or_false,
        List.mem_map] at ha
      rcases ha with (rfl | rfl | rfl) | ⟨ev, -, rfl⟩ <;> simp [beq_eq_false_iff_ne]
    dsimp only
    have hstop := execute_stop_mem env count cp d ws0
    rw [takeWhile_append_of_all (fun x => !(x == OrchEvent.updateStatus "FAILED"))
      ([OrchEvent.getExperiment, OrchEvent.updateStatus "RUNNING", OrchEvent.activeInc] ++
        (execute env count cp d ws0).trace.map OrchEvent.execEvent)
      [OrchEvent.updateStatus "FAILED", OrchEvent.addError (errStr e),
        OrchEvent.activeDec] hpre]
    exact List.mem_append_left _
      (List.mem_append_right _ (List.mem_map_of_mem _ hstop))

/-- Witness for C3 (amended): in the concrete failing run, no exception
escapes the orchestrator and the teardown event precedes the FAILED
status. -/
theorem orchestrator_error_path_witness :
    (runCPUStressExperiment demoEnvError 1 80 5 []).2 = none ∧
    OrchEvent.executorCleanup ∉ (runCPUStressExperiment demoEnvError 1 80 5 []).1 := by
  have h := orchestrator_error_path demoEnvError 1 80 5 []
    (.other "sink unavailable") (by rfl)
  exact ⟨h.1, h.2.2.1⟩


end ChaosCore
